import Mathlib

/-!
Shallow embedding of the core use-case layer of the todo/auth application
(`src/core/use-cases/TodoUseCases.ts`, `src/core/repositories/InMemoryUserRepository.ts`,
the in-memory todo repository, and the API-backed repositories).

Conventions of the embedding:
* Promises are elided: every async method becomes a pure function.
* A thrown `Error(msg)` becomes `Except.error msg`; since a JS method that
  throws mid-way keeps the mutations it already performed, every stateful
  operation returns the resulting state alongside the `Except` value.
* `Date` values are milliseconds since the epoch (`Nat`); `new Date()` is an
  explicit `now` parameter.
* `crypto.randomUUID()` is an explicit fresh-identifier parameter.
* A TypeScript optional parameter `x?: string` becomes `Option String`; the
  JS truthiness test `if (x)` on such a parameter is `truthy x`, false for
  both `none` (undefined) and `some ""` (empty string, falsy in JS).
-/

namespace TodoApp

/-- JS truthiness of an optional string: `undefined` and `""` are falsy. -/
def truthy : Option String → Bool
  | none => false
  | some s => s ≠ ""

/-- JS `String.prototype.trim()`: drop leading and trailing whitespace. -/
def jsTrim (s : String) : String :=
  ⟨((s.data.dropWhile Char.isWhitespace).reverse.dropWhile Char.isWhitespace).reverse⟩

/-- JS `String.prototype.toLowerCase()`. -/
def jsToLower (s : String) : String :=
  ⟨s.data.map Char.toLower⟩

/-- JS `String.prototype.includes` specialised to a single character. -/
def jsIncludes (s : String) (c : Char) : Bool :=
  s.data.contains c

/-- `Todo` record (`src/core/models/Todo.ts`, repository variant with
`userId` and `createdAt`). -/
structure Todo where
  id : String
  title : String
  completed : Bool
  userId : String
  createdAt : Nat
  deriving Repr, DecidableEq

/-- `UpdateTodoDTO`: optional fields model `title?` / `completed?`. -/
structure UpdateTodoDTO where
  id : String
  title : Option String := none
  completed : Option Bool := none
  deriving Repr, DecidableEq

/-- The backing array of `InMemoryTodoRepository`. -/
abbrev TodoStore := List Todo

/-- `this.todos.find((todo) => todo.id === id) || null`. -/
def findTodo (todos : TodoStore) (id : String) : Option Todo :=
  todos.find? (fun t => t.id = id)

/-- The object-spread merge in `InMemoryTodoRepository.update`:
`{...old, ...(data.title !== undefined && {title}), ...(data.completed !== undefined && {completed})}`. -/
def mergeTodo (t : Todo) (d : UpdateTodoDTO) : Todo :=
  { t with title := d.title.getD t.title, completed := d.completed.getD t.completed }

/-- `InMemoryTodoRepository.update`: `findIndex` on the id, throw if absent,
otherwise replace the first matching element in place and return it. -/
def repoUpdate : TodoStore → UpdateTodoDTO → Except String Todo × TodoStore
  | [], d => (.error ("Todo with id " ++ d.id ++ " not found"), [])
  | t :: ts, d =>
    if t.id = d.id then
      let t' := mergeTodo t d
      (.ok t', t' :: ts)
    else
      let r := repoUpdate ts d
      (r.1, t :: r.2)

/-- `InMemoryTodoRepository.delete`: `findIndex` on the id, throw if absent,
otherwise `splice` the first matching element out. -/
def repoDelete : TodoStore → String → Except String Unit × TodoStore
  | [], id => (.error ("Todo with id " ++ id ++ " not found"), [])
  | t :: ts, id =>
    if t.id = id then (.ok (), ts)
    else
      let r := repoDelete ts id
      (r.1, t :: r.2)

/-- `InMemoryTodoRepository.create`: push a new todo with `completed: false`. -/
def repoCreate (todos : TodoStore) (title : String) (userId : String)
    (newId : String) (now : Nat) : Todo × TodoStore :=
  let t : Todo := { id := newId, title := title, completed := false,
                    userId := userId, createdAt := now }
  (t, todos ++ [t])

/-- `TodoUseCases.createTodo`: requires a truthy `userId`, a title that is
non-empty after trimming, then delegates to the repository. -/
def createTodo (todos : TodoStore) (title : String) (userId : String)
    (newId : String) (now : Nat) : Except String Todo × TodoStore :=
  if userId = "" then (.error "Authentication required to create todos", todos)
  else if jsTrim title = "" then (.error "Todo title cannot be empty", todos)
  else
    let r := repoCreate todos title userId newId now
    (.ok r.1, r.2)

/-- `existingTodo && existingTodo.userId !== userId` after a `getById`:
true when the id resolves to a todo owned by someone other than `u`. -/
def ownedByOther (todos : TodoStore) (id : String) (u : String) : Bool :=
  match findTodo todos id with
  | some t => t.userId ≠ u
  | none => false

/-- `TodoUseCases.updateTodo`: rejects an explicit empty-after-trim title,
checks ownership when a truthy `userId` is supplied, then updates. -/
def updateTodo (todos : TodoStore) (d : UpdateTodoDTO) (userId : Option String) :
    Except String Todo × TodoStore :=
  if (match d.title with | some s => jsTrim s == "" | none => false) then
    (.error "Todo title cannot be empty", todos)
  else if truthy userId && ownedByOther todos d.id (userId.getD "") then
    (.error "Unauthorized: You can only update your own todos", todos)
  else repoUpdate todos d

/-- `TodoUseCases.toggleTodo`: look up the todo, throw NotFound if absent,
check ownership when a truthy `userId` is supplied, then flip `completed`
through the repository. -/
def toggleTodo (todos : TodoStore) (id : String) (userId : Option String) :
    Except String Todo × TodoStore :=
  match findTodo todos id with
  | none => (.error ("Todo with id " ++ id ++ " not found"), todos)
  | some t =>
    if truthy userId && (t.userId ≠ userId.getD "") then
      (.error "Unauthorized: You can only toggle your own todos", todos)
    else repoUpdate todos { id := id, completed := some (!t.completed) }

/-- `TodoUseCases.deleteTodo`: when a truthy `userId` is supplied and the id
resolves to a todo owned by someone else, throw Unauthorized; otherwise
delegate to the repository `delete`. -/
def deleteTodo (todos : TodoStore) (id : String) (userId : Option String) :
    Except String Unit × TodoStore :=
  if truthy userId && ownedByOther todos id (userId.getD "") then
    (.error "Unauthorized: You can only delete your own todos", todos)
  else repoDelete todos id

/-- `User` record (`src/core/models/User.ts`), the credential-free shape. -/
structure User where
  id : String
  email : String
  username : String
  createdAt : Nat
  deriving Repr, DecidableEq

/-- `UserWithPassword`: `User` plus the `passwordHash` credential. -/
structure UserWithPassword where
  id : String
  email : String
  username : String
  createdAt : Nat
  passwordHash : String
  deriving Repr, DecidableEq

/-- The destructuring `const { passwordHash, ...user } = userWithPassword`. -/
def stripPassword (u : UserWithPassword) : User :=
  { id := u.id, email := u.email, username := u.username, createdAt := u.createdAt }

structure RegisterDTO where
  email : String
  username : String
  password : String
  deriving Repr, DecidableEq

structure LoginDTO where
  email : String
  password : String
  deriving Repr, DecidableEq

structure ChangePasswordDTO where
  userId : String
  currentPassword : String
  newPassword : String
  deriving Repr, DecidableEq

/-- `UpdateUserDTO` (`id` plus optional `email` / `username`). -/
structure UpdateUserDTO where
  id : String
  email : Option String := none
  username : Option String := none
  deriving Repr, DecidableEq

/-- The backing array of `InMemoryUserRepository`. -/
abbrev UserStore := List UserWithPassword

/-- `InMemoryUserRepository.getAll`: strips every password hash. -/
def usersGetAll (us : UserStore) : List User :=
  us.map stripPassword

/-- `InMemoryUserRepository.getById`: first id match, password stripped. -/
def usersGetById (us : UserStore) (id : String) : Option User :=
  (us.find? (fun u => u.id = id)).map stripPassword

/-- `InMemoryUserRepository.getByEmail`: case-insensitive email match,
returns the credential-bearing record. -/
def usersGetByEmail (us : UserStore) (email : String) : Option UserWithPassword :=
  us.find? (fun u => jsToLower u.email = jsToLower email)

/-- `InMemoryUserRepository.emailExists`: case-insensitive membership. -/
def emailExists (us : UserStore) (email : String) : Bool :=
  us.any (fun u => jsToLower u.email = jsToLower email)

/-- `InMemoryUserRepository.usernameExists`: case-insensitive membership. -/
def usernameExists (us : UserStore) (username : String) : Bool :=
  us.any (fun u => jsToLower u.username = jsToLower username)

/-- `InMemoryUserRepository.create`: pushes a record with a fresh id, the
email lower-cased, and the raw password stored as the hash. -/
def usersCreate (us : UserStore) (d : RegisterDTO) (newId : String) (now : Nat) :
    UserWithPassword × UserStore :=
  let u : UserWithPassword :=
    { id := newId, email := jsToLower d.email, username := d.username,
      createdAt := now, passwordHash := d.password }
  (u, us ++ [u])

/-- The object-spread merge in `InMemoryUserRepository.update`: provided
`email` is lower-cased, provided `username` replaces the old one,
`passwordHash` is untouched. -/
def mergeUser (u : UserWithPassword) (d : UpdateUserDTO) : UserWithPassword :=
  { u with email := (d.email.map jsToLower).getD u.email,
           username := d.username.getD u.username }

/-- `InMemoryUserRepository.update`: `findIndex` on the id, throw if absent,
replace the first match in place, return the record with the password
stripped. -/
def usersUpdate : UserStore → UpdateUserDTO → Except String User × UserStore
  | [], d => (.error ("User with id " ++ d.id ++ " not found"), [])
  | u :: us, d =>
    if u.id = d.id then
      let u' := mergeUser u d
      (.ok (stripPassword u'), u' :: us)
    else
      let r := usersUpdate us d
      (r.1, u :: r.2)

/-- `AuthSession` (`src/core/models/User.ts`). -/
structure AuthSession where
  user : User
  token : String
  expiresAt : Nat
  deriving Repr, DecidableEq

/-- The `Map<string, AuthSession>` held by `AuthUseCases`, as an
association list with unique keys maintained by `mapSet`. -/
abbrev SessionTable := List (String × AuthSession)

/-- `Map.get`. -/
def mapGet (m : SessionTable) (k : String) : Option AuthSession :=
  (m.find? (fun p => p.1 = k)).map (fun p => p.2)

/-- `Map.set`: replaces the entry when the key is present, appends otherwise. -/
def mapSet (m : SessionTable) (k : String) (v : AuthSession) : SessionTable :=
  if m.any (fun p => p.1 = k) then
    m.map (fun p => if p.1 = k then (k, v) else p)
  else m ++ [(k, v)]

/-- `Map.delete`. -/
def mapDelete (m : SessionTable) (k : String) : SessionTable :=
  m.filter (fun p => p.1 ≠ k)

/-- Joint state of an `AuthUseCases` instance: its session map plus the
backing store of its injected `InMemoryUserRepository`. -/
structure AuthState where
  users : UserStore
  sessions : SessionTable
  deriving Repr, DecidableEq

/-- `expiresAt.setHours(expiresAt.getHours() + 24)`: 24 hours in ms. -/
def sessionDurationMs : Nat := 24 * 60 * 60 * 1000

/-- `AuthUseCases.createSession`: fresh token, expiry 24 h from now. -/
def createSession (user : User) (newTok : String) (now : Nat) : AuthSession :=
  { user := user, token := newTok, expiresAt := now + sessionDurationMs }

/-- `AuthUseCases.validateSession`: `null` when the token is untracked;
lazily deletes and returns `null` when `session.expiresAt < new Date()`;
otherwise returns the session's user. -/
def validateSession (s : AuthState) (tok : String) (now : Nat) :
    Option User × AuthState :=
  match mapGet s.sessions tok with
  | none => (none, s)
  | some sess =>
    if sess.expiresAt < now then
      (none, { s with sessions := mapDelete s.sessions tok })
    else (some sess.user, s)

/-- `AuthUseCases.isAuthenticated`: falsy-token guard, then a pure check
that the tracked session satisfies `expiresAt > new Date()`. -/
def isAuthenticated (s : AuthState) (tok : Option String) (now : Nat) : Bool :=
  match tok with
  | none => false
  | some t =>
    if t = "" then false
    else match mapGet s.sessions t with
      | none => false
      | some sess => now < sess.expiresAt

/-- `AuthUseCases.register`: field validations, duplicate checks, user
creation, then a new session is tracked and returned. -/
def register (s : AuthState) (d : RegisterDTO) (newId newTok : String) (now : Nat) :
    Except String AuthSession × AuthState :=
  if d.email = "" || !(jsIncludes d.email '@') then
    (.error "Invalid email address", s)
  else if d.username = "" || d.username.length < 3 then
    (.error "Username must be at least 3 characters", s)
  else if d.password = "" || d.password.length < 6 then
    (.error "Password must be at least 6 characters", s)
  else if emailExists s.users d.email then
    (.error "Email already registered", s)
  else if usernameExists s.users d.username then
    (.error "Username already taken", s)
  else
    let r := usersCreate s.users d newId now
    let sess := createSession (stripPassword r.1) newTok now
    (.ok sess, { users := r.2, sessions := mapSet s.sessions sess.token sess })

/-- `AuthUseCases.login`: missing-credentials guard, lookup by email, plain
credential comparison, then a new session is tracked and returned. Both the
unknown-email and the wrong-password paths throw the same message. -/
def login (s : AuthState) (d : LoginDTO) (newTok : String) (now : Nat) :
    Except String AuthSession × AuthState :=
  if d.email = "" || d.password = "" then
    (.error "Email and password are required", s)
  else match usersGetByEmail s.users d.email with
    | none => (.error "Invalid email or password", s)
    | some uw =>
      if uw.passwordHash ≠ d.password then
        (.error "Invalid email or password", s)
      else
        let sess := createSession (stripPassword uw) newTok now
        (.ok sess, { s with sessions := mapSet s.sessions sess.token sess })

/-- `AuthUseCases.logout`. -/
def logout (s : AuthState) (tok : String) : AuthState :=
  { s with sessions := mapDelete s.sessions tok }

/-- `AuthUseCases.changePassword`: session and field checks, current
password verified against the store; the updated record is computed but the
method returns without ever writing it back to the repository. -/
def changePassword (s : AuthState) (tok : String) (d : ChangePasswordDTO)
    (now : Nat) : Except String Unit × AuthState :=
  let v := validateSession s tok now
  match v.1 with
  | none => (.error "Unauthorized", v.2)
  | some u =>
    if u.id ≠ d.userId then (.error "Unauthorized", v.2)
    else if d.currentPassword = "" || d.newPassword = "" then
      (.error "Current password and new password are required", v.2)
    else if d.newPassword.length < 6 then
      (.error "New password must be at least 6 characters", v.2)
    else match usersGetByEmail v.2.users u.email with
      | none => (.error "User not found", v.2)
      | some uw =>
        if uw.passwordHash ≠ d.currentPassword then
          (.error "Current password is incorrect", v.2)
        else
          (.ok (), v.2)

/-- `AuthUseCases.refreshSession`: fails when `validateSession` yields null
(keeping its lazy-cleanup effect), otherwise deletes the old token and
tracks a fresh 24-hour session for the same user. -/
def refreshSession (s : AuthState) (tok : String) (newTok : String) (now : Nat) :
    Except String AuthSession × AuthState :=
  let v := validateSession s tok now
  match v.1 with
  | none => (.error "Invalid or expired session", v.2)
  | some u =>
    let s2 := { v.2 with sessions := mapDelete v.2.sessions tok }
    let sess := createSession u newTok now
    (.ok sess, { s2 with sessions := mapSet s2.sessions sess.token sess })

/-- A failure surfaced by an `IHttpClient` implementation: either a thrown
`HTTP {status}: {statusText}` error (`FetchHttpClient.request` on
`!response.ok`) or a rejected network request. -/
inductive TransportFailure where
  | httpStatus (code : Nat) (text : String)
  | network (msg : String)
  deriving Repr, DecidableEq

/-- Outcome of a single `httpClient.get` call. -/
abbrev HttpOutcome (α : Type) := Except TransportFailure α

/-- `ApiTodoRepository.getById`: the `try { ... } catch (error) { return null }`
around the HTTP call, applied to the call's outcome. -/
def apiTodoGetById (resp : HttpOutcome Todo) : HttpOutcome (Option Todo) :=
  match resp with
  | .ok t => .ok (some t)
  | .error _ => .ok none

/-- `ApiUserRepository.getByEmail`: the same catch-all recovery to `null`. -/
def apiUserGetByEmail (resp : HttpOutcome UserWithPassword) :
    HttpOutcome (Option UserWithPassword) :=
  match resp with
  | .ok u => .ok (some u)
  | .error _ => .ok none

/-! ### Association-list and list-search lemmas -/

theorem findTodo_nil (id : String) : findTodo [] id = none := rfl

theorem findTodo_cons_pos (t : Todo) (ts : TodoStore) (id : String) (h : t.id = id) :
    findTodo (t :: ts) id = some t := by
  simp [findTodo, List.find?_cons_of_pos, h]

theorem findTodo_cons_neg (t : Todo) (ts : TodoStore) (id : String) (h : t.id ≠ id) :
    findTodo (t :: ts) id = findTodo ts id := by
  simp [findTodo, List.find?_cons_of_neg, h]

/-- A successful `findTodo` splits the store at the first id match. -/
theorem findTodo_decomp (todos : TodoStore) (id : String) (t : Todo)
    (h : findTodo todos id = some t) :
    ∃ l1 l2, todos = l1 ++ t :: l2 ∧ (∀ x ∈ l1, x.id ≠ id) ∧ t.id = id := by
  induction todos with
  | nil => simp [findTodo] at h
  | cons a l ih =>
    by_cases ha : a.id = id
    · rw [findTodo_cons_pos a l id ha] at h
      cases h
      exact ⟨[], l, rfl, by simp, ha⟩
    · rw [findTodo_cons_neg a l id ha] at h
      obtain ⟨l1, l2, rfl, h1, h2⟩ := ih h
      exact ⟨a :: l1, l2, rfl, by
        intro x hx
        rcases List.mem_cons.mp hx with rfl | hx
        · exact ha
        · exact h1 x hx, h2⟩

theorem findTodo_append_first (l1 : TodoStore) (t : Todo) (l2 : TodoStore)
    (id : String) (h1 : ∀ x ∈ l1, x.id ≠ id) (h2 : t.id = id) :
    findTodo (l1 ++ t :: l2) id = some t := by
  induction l1 with
  | nil => exact findTodo_cons_pos t l2 id h2
  | cons a l ih =>
    rw [List.cons_append, findTodo_cons_neg a _ id (h1 a (List.mem_cons_self a l))]
    exact ih (fun x hx => h1 x (List.mem_cons_of_mem a hx))

/-- `repoUpdate` rewrites exactly the first id match, in place. -/
theorem repoUpdate_append_first (l1 : TodoStore) (t : Todo) (l2 : TodoStore)
    (d : UpdateTodoDTO) (h1 : ∀ x ∈ l1, x.id ≠ d.id) (h2 : t.id = d.id) :
    repoUpdate (l1 ++ t :: l2) d = (.ok (mergeTodo t d), l1 ++ mergeTodo t d :: l2) := by
  induction l1 with
  | nil => simp [repoUpdate, h2]
  | cons a l ih =>
    have ha : ¬ a.id = d.id := h1 a (List.mem_cons_self a l)
    simp [repoUpdate, ha, ih (fun x hx => h1 x (List.mem_cons_of_mem a hx))]

/-- When no element matches, `repoUpdate` fails and preserves the store. -/
theorem repoUpdate_not_found (todos : TodoStore) (d : UpdateTodoDTO)
    (h : ∀ x ∈ todos, x.id ≠ d.id) :
    repoUpdate todos d = (.error ("Todo with id " ++ d.id ++ " not found"), todos) := by
  induction todos with
  | nil => rfl
  | cons a l ih =>
    have ha : ¬ a.id = d.id := h a (List.mem_cons_self a l)
    simp only [repoUpdate, if_neg ha, ih (fun x hx => h x (List.mem_cons_of_mem a hx))]

/-! ### C5: empty / whitespace-only titles -/

/-- C5 (counterexample): with an empty `ownerId` (a falsy string argument,
permitted by the claim's "any ownerId"), `createTodo` on a whitespace-only
title fails with the authentication-required error, not the title
validation error the claim asserts. -/
theorem c5_counterexample :
    createTodo [] " " "" "id1" 0 = (.error "Authentication required to create todos", []) ∧
    ("Authentication required to create todos" : String) ≠ "Todo title cannot be empty" := by
  exact ⟨rfl, by decide⟩

/-- C5 (amended): for every title that trims to empty and every non-empty
`ownerId`, `createTodo` fails with the title validation error and leaves the
store untouched; `updateTodo` with such a title as the explicit new title
does the same for every caller. -/
theorem c5_empty_title_rejected (todos : TodoStore) (title uid newId : String)
    (now : Nat) (d : UpdateTodoDTO) (userId : Option String)
    (ht : jsTrim title = "") (hu : uid ≠ "") (hd : d.title = some title) :
    createTodo todos title uid newId now = (.error "Todo title cannot be empty", todos) ∧
    updateTodo todos d userId = (.error "Todo title cannot be empty", todos) := by
  refine ⟨?_, ?_⟩
  · simp [createTodo, hu, ht]
  · simp [updateTodo, hd, ht]

/-- C5 witness at concrete inputs. -/
theorem c5_witness :
    createTodo [] "  " "u1" "id1" 0 = (.error "Todo title cannot be empty", []) ∧
    updateTodo [] { id := "t1", title := some "  " } none =
      (.error "Todo title cannot be empty", []) :=
  c5_empty_title_rejected [] "  " "u1" "id1" 0 { id := "t1", title := some "  " }
    none (by decide) (by decide) rfl

/-! ### C6: delete by a non-owner -/

/-- C6 (counterexample): the empty string is a user id distinct from the
owner `"u1"`, yet `deleteTodo` with it is falsy-skipped past the ownership
check and deletes the todo instead of failing Unauthorized. -/
theorem c6_counterexample :
    deleteTodo [{ id := "t1", title := "Buy milk", completed := false,
                  userId := "u1", createdAt := 0 }] "t1" (some "") = (.ok (), []) ∧
    ("" : String) ≠ "u1" := by
  exact ⟨rfl, by decide⟩

/-- C6 (amended): for every non-empty caller id `u2` different from the
owner of the todo the id resolves to, `deleteTodo` fails Unauthorized and
the store — hence the todo and all its fields — is unchanged. -/
theorem c6_unauthorized_delete (todos : TodoStore) (id : String) (t : Todo)
    (u2 : String) (hfind : findTodo todos id = some t)
    (hne : u2 ≠ t.userId) (hne2 : u2 ≠ "") :
    deleteTodo todos id (some u2) =
      (.error "Unauthorized: You can only delete your own todos", todos) ∧
    findTodo (deleteTodo todos id (some u2)).2 id = some t := by
  have hcond : deleteTodo todos id (some u2) =
      (.error "Unauthorized: You can only delete your own todos", todos) := by
    simp [deleteTodo, truthy, hne2, ownedByOther, hfind, Ne.symm hne]
  exact ⟨hcond, by rw [hcond]; exact hfind⟩

/-- C6 witness at concrete inputs. -/
theorem c6_witness :
    deleteTodo [{ id := "t1", title := "Buy milk", completed := false,
                  userId := "u1", createdAt := 0 }] "t1" (some "u2") =
      (.error "Unauthorized: You can only delete your own todos",
        [{ id := "t1", title := "Buy milk", completed := false,
           userId := "u1", createdAt := 0 }]) :=
  (c6_unauthorized_delete
    [{ id := "t1", title := "Buy milk", completed := false,
       userId := "u1", createdAt := 0 }] "t1"
    { id := "t1", title := "Buy milk", completed := false,
      userId := "u1", createdAt := 0 } "u2" rfl (by decide) (by decide)).1

/-! ### C8: toggle is an involution -/

/-- One authorized `toggleTodo` on a store split at the first id match:
flips `completed` of that element in place. -/
theorem toggleTodo_step (l1 : TodoStore) (t : Todo) (l2 : TodoStore) (id : String)
    (userId : Option String) (h1 : ∀ x ∈ l1, x.id ≠ id) (h2 : t.id = id)
    (hauth : (truthy userId && decide (t.userId ≠ userId.getD "")) = false) :
    toggleTodo (l1 ++ t :: l2) id userId =
      (.ok { t with completed := !t.completed },
       l1 ++ { t with completed := !t.completed } :: l2) := by
  have hfind := findTodo_append_first l1 t l2 id h1 h2
  have hmerge : mergeTodo t { id := id, completed := some (!t.completed) } =
      { t with completed := !t.completed } := by simp [mergeTodo]
  have hup := repoUpdate_append_first l1 t l2
    { id := id, completed := some (!t.completed) } h1 h2
  simp only [toggleTodo, hfind, hauth, Bool.false_eq_true, if_false, hup, hmerge]

/-- C8 (confirmed): toggling a stored todo twice (as its owner, or with no
caller id) returns exactly the original todo — original `completed`,
`title`, `userId`, `createdAt` — and restores the whole store. -/
theorem c8_toggle_involution (todos : TodoStore) (id : String)
    (userId : Option String) (t : Todo) (hfind : findTodo todos id = some t)
    (hauth : userId = none ∨ userId = some t.userId) :
    ∃ t1 todos1, toggleTodo todos id userId = (.ok t1, todos1) ∧
      toggleTodo todos1 id userId = (.ok t, todos) := by
  obtain ⟨l1, l2, rfl, h1, h2⟩ := findTodo_decomp _ _ _ hfind
  have hauthb : ∀ x : Todo, x.userId = t.userId →
      (truthy userId && decide (x.userId ≠ userId.getD "")) = false := by
    intro x hx
    rcases hauth with rfl | rfl
    · rfl
    · simp [truthy, hx]
  have hs1 := toggleTodo_step l1 t l2 id userId h1 h2 (hauthb t rfl)
  have hs2 := toggleTodo_step l1 { t with completed := !t.completed } l2 id userId
    h1 h2 (hauthb _ rfl)
  have hback : ({ t with completed := !(!t.completed) } : Todo) = t := by
    cases t; simp
  rw [hback] at hs2
  exact ⟨_, _, hs1, hs2⟩

/-- C8 witness at concrete inputs. -/
theorem c8_witness :
    ∃ t1 todos1,
      toggleTodo [{ id := "t1", title := "Buy milk", completed := false,
                    userId := "u1", createdAt := 0 }] "t1" (some "u1") = (.ok t1, todos1) ∧
      toggleTodo todos1 "t1" (some "u1") =
        (.ok { id := "t1", title := "Buy milk", completed := false,
               userId := "u1", createdAt := 0 },
          [{ id := "t1", title := "Buy milk", completed := false,
             userId := "u1", createdAt := 0 }]) :=
  c8_toggle_involution _ "t1" (some "u1") _ rfl (Or.inr rfl)

/-! ### Session-table lemmas -/

theorem mapGet_cons (a : String × AuthSession) (m : SessionTable) (k : String) :
    mapGet (a :: m) k = if a.1 = k then some a.2 else mapGet m k := by
  by_cases h : a.1 = k
  · simp [mapGet, List.find?_cons_of_pos, h]
  · simp [mapGet, List.find?_cons_of_neg, h]

theorem mapGet_delete_self (m : SessionTable) (k : String) :
    mapGet (mapDelete m k) k = none := by
  induction m with
  | nil => rfl
  | cons a m ih =>
    by_cases ha : a.1 = k
    · simpa [mapDelete, List.filter_cons, ha] using ih
    · simpa [mapDelete, List.filter_cons, ha, mapGet_cons] using ih

theorem mapGet_delete_ne (m : SessionTable) (k k' : String) (h : k' ≠ k) :
    mapGet (mapDelete m k) k' = mapGet m k' := by
  induction m with
  | nil => rfl
  | cons a m ih =>
    by_cases ha : a.1 = k
    · simpa [mapDelete, List.filter_cons, ha, mapGet_cons, Ne.symm h] using ih
    · by_cases hk' : a.1 = k'
      · simp [mapDelete, List.filter_cons, ha, mapGet_cons, hk', h]
      · simpa [mapDelete, List.filter_cons, ha, mapGet_cons, hk'] using ih

theorem mapGet_map_set_self (m : SessionTable) (k : String) (v : AuthSession)
    (hm : m.any (fun p => p.1 = k) = true) :
    mapGet (m.map (fun p => if p.1 = k then (k, v) else p)) k = some v := by
  induction m with
  | nil => simp at hm
  | cons a m ih =>
    by_cases ha : a.1 = k
    · simp [List.map_cons, ha, mapGet_cons]
    · have hm' : m.any (fun p => p.1 = k) = true := by
        simpa [List.any_cons, ha] using hm
      simp [List.map_cons, ha, mapGet_cons, ih hm']

theorem mapGet_append_single_self (m : SessionTable) (k : String) (v : AuthSession)
    (hm : m.any (fun p => p.1 = k) = false) :
    mapGet (m ++ [(k, v)]) k = some v := by
  induction m with
  | nil => simp [mapGet_cons]
  | cons a m ih =>
    have ha : ¬ a.1 = k := by
      intro hh
      simp [List.any_cons, hh] at hm
    have hm' : m.any (fun p => p.1 = k) = false := by
      simpa [List.any_cons, ha] using hm
    simpa [mapGet_cons, ha] using ih hm'

theorem mapGet_set_self (m : SessionTable) (k : String) (v : AuthSession) :
    mapGet (mapSet m k v) k = some v := by
  by_cases hm : m.any (fun p => p.1 = k) = true
  · simp only [mapSet]
    rw [if_pos hm]
    exact mapGet_map_set_self m k v hm
  · have hm' : m.any (fun p => p.1 = k) = false := by
      revert hm; cases m.any (fun p => p.1 = k) <;> simp
    simp only [mapSet]
    rw [if_neg (by rw [hm']; exact Bool.false_ne_true)]
    exact mapGet_append_single_self m k v hm'

theorem mapGet_map_set_ne (m : SessionTable) (k k' : String) (v : AuthSession)
    (h : k' ≠ k) :
    mapGet (m.map (fun p => if p.1 = k then (k, v) else p)) k' = mapGet m k' := by
  induction m with
  | nil => rfl
  | cons a m ih =>
    by_cases ha : a.1 = k
    · simp [List.map_cons, ha, mapGet_cons, Ne.symm h, ih]
    · by_cases hk' : a.1 = k'
      · simp [List.map_cons, ha, mapGet_cons, hk', h]
      · simp [List.map_cons, ha, mapGet_cons, hk', ih]

theorem mapGet_append_single_ne (m : SessionTable) (k k' : String) (v : AuthSession)
    (h : k' ≠ k) :
    mapGet (m ++ [(k, v)]) k' = mapGet m k' := by
  induction m with
  | nil => simp [mapGet_cons, Ne.symm h]
  | cons a m ih => by_cases ha : a.1 = k' <;> simp [mapGet_cons, ha, ih]

theorem mapGet_set_ne (m : SessionTable) (k k' : String) (v : AuthSession)
    (h : k' ≠ k) :
    mapGet (mapSet m k v) k' = mapGet m k' := by
  by_cases hm : m.any (fun p => p.1 = k) = true
  · simp only [mapSet]
    rw [if_pos hm]
    exact mapGet_map_set_ne m k k' v h
  · have hm' : m.any (fun p => p.1 = k) = false := by
      revert hm; cases m.any (fun p => p.1 = k) <;> simp
    simp only [mapSet]
    rw [if_neg (by rw [hm']; exact Bool.false_ne_true)]
    exact mapGet_append_single_ne m k k' v h

/-! ### Concrete fixtures for counterexamples and witnesses -/

/-- A concrete credential-free user. -/
def userA : User :=
  { id := "u1", email := "a@b.c", username := "alice", createdAt := 0 }

/-- A concrete session for `userA` under token `"tok"`, expiring at `e`. -/
def sessionAt (e : Nat) : AuthSession :=
  { user := userA, token := "tok", expiresAt := e }

/-- An auth state tracking only `sessionAt e`. -/
def stateWithSession (e : Nat) : AuthState :=
  { users := [], sessions := [("tok", sessionAt e)] }

/-- A concrete stored user with credential `"secret1"`. -/
def aliceUW : UserWithPassword :=
  { id := "u1", email := "a@b.c", username := "alice", createdAt := 0,
    passwordHash := "secret1" }

/-- An auth state whose user store holds only `aliceUW`, with no sessions. -/
def stateWithAlice : AuthState :=
  { users := [aliceUW], sessions := [] }

/-- An auth state holding `aliceUW` and a session for her expiring at 100. -/
def stateAliceLoggedIn : AuthState :=
  { users := [aliceUW], sessions := [("tok", sessionAt 100)] }

/-! ### C2: isAuthenticated vs validateSession -/

/-- C2 (counterexample): at the instant `now = expiresAt`, `validateSession`
still returns the user (`expiresAt < now` is false) while `isAuthenticated`
returns false (`expiresAt > now` is false), refuting the claimed
equivalence. -/
theorem c2_counterexample :
    validateSession (stateWithSession 100) "tok" 100 = (some userA, stateWithSession 100) ∧
    isAuthenticated (stateWithSession 100) (some "tok") 100 = false := by
  exact ⟨rfl, rfl⟩

/-- C2 (amended): `isAuthenticated` is true exactly when a session is
tracked under a non-empty token with `now` strictly before `expiresAt`,
while `validateSession` is non-null exactly when a session is tracked with
`now ≤ expiresAt`; so `isAuthenticated = true` implies `validateSession`
non-null (and then `validateSession` has no side effect either), and the two
coincide except at the boundary instant `now = expiresAt`. `isAuthenticated`
itself is embedded as a pure function: it never touches the table. -/
theorem c2_auth_vs_validate (s : AuthState) (t : String) (now : Nat) :
    (isAuthenticated s (some t) now = true ↔
      t ≠ "" ∧ ∃ sess, mapGet s.sessions t = some sess ∧ now < sess.expiresAt) ∧
    ((validateSession s t now).1 ≠ none ↔
      ∃ sess, mapGet s.sessions t = some sess ∧ now ≤ sess.expiresAt) ∧
    (isAuthenticated s (some t) now = true →
      (validateSession s t now).1 ≠ none ∧ (validateSession s t now).2 = s) := by
  refine ⟨?_, ?_, ?_⟩
  · by_cases ht : t = ""
    · simp [isAuthenticated, ht]
    · cases hm : mapGet s.sessions t with
      | none => simp [isAuthenticated, ht, hm]
      | some sess => simp [isAuthenticated, ht, hm]
  · cases hm : mapGet s.sessions t with
    | none => simp [validateSession, hm]
    | some sess =>
      by_cases hev : sess.expiresAt < now
      · simp only [validateSession, hm]
        rw [if_pos hev]
        simp
        omega
      · simp only [validateSession, hm]
        rw [if_neg hev]
        simp
        omega
  · intro hia
    by_cases ht : t = ""
    · simp [isAuthenticated, ht] at hia
    · cases hm : mapGet s.sessions t with
      | none => simp [isAuthenticated, ht, hm] at hia
      | some sess =>
        simp only [isAuthenticated, ht, hm] at hia
        have hlt : now < sess.expiresAt := by
          simpa using hia
        have hev : ¬ sess.expiresAt < now := by omega
        simp only [validateSession, hm]
        rw [if_neg hev]
        simp

/-- C2 witness: a valid (strictly unexpired) concrete session on which the
amended equivalences are all inhabited. -/
theorem c2_witness :
    isAuthenticated (stateWithSession 100) (some "tok") 99 = true ∧
    (validateSession (stateWithSession 100) "tok" 99).1 ≠ none := by
  refine ⟨rfl, ?_⟩
  exact ((c2_auth_vs_validate (stateWithSession 100) "tok" 99).2.2 rfl).1

/-! ### C9: refreshSession -/

/-- A non-null `validateSession` has no side effect and exposes a tracked,
unexpired session. -/
theorem validateSession_some (s : AuthState) (tok : String) (now : Nat) (u : User)
    (h : (validateSession s tok now).1 = some u) :
    (validateSession s tok now).2 = s ∧
    ∃ sess, mapGet s.sessions tok = some sess ∧ sess.user = u ∧
      ¬ sess.expiresAt < now := by
  cases hm : mapGet s.sessions tok with
  | none => simp [validateSession, hm] at h
  | some sess =>
    by_cases hev : sess.expiresAt < now
    · simp only [validateSession, hm] at h
      rw [if_pos hev] at h
      simp at h
    · simp only [validateSession, hm] at h ⊢
      rw [if_neg hev] at h ⊢
      simp only [Option.some.injEq] at h
      exact ⟨rfl, sess, rfl, h, hev⟩

/-- C9 (counterexample): refreshing with a token whose session is tracked
but expired fails as claimed, but the session table is *not* unchanged —
`validateSession`'s lazy cleanup has deleted the expired entry. -/
theorem c9_counterexample :
    refreshSession (stateWithSession 50) "tok" "nt" 100 =
      (.error "Invalid or expired session", { users := [], sessions := [] }) ∧
    (stateWithSession 50).sessions ≠ [] := by
  exact ⟨rfl, by decide⟩

/-- C9 (amended): when `validateSession` yields null, `refreshSession` fails
with the invalid-session error and the final state is exactly
`validateSession`'s post-state (unchanged, except that a tracked-but-expired
entry for the token has been lazily removed). Otherwise — assuming the
freshly generated token is not already tracked and differs from the old
one (it is a fresh UUID) — it returns a session for the same user expiring 24 hours from the
refresh time, tracks the new token, and stops tracking the old token. -/
theorem c9_refresh_session (s : AuthState) (tok newTok : String) (now : Nat)
    (hne : newTok ≠ tok) :
    ((validateSession s tok now).1 = none →
      refreshSession s tok newTok now =
        (.error "Invalid or expired session", (validateSession s tok now).2)) ∧
    (∀ u, (validateSession s tok now).1 = some u →
      (refreshSession s tok newTok now).1 = .ok (createSession u newTok now) ∧
      (createSession u newTok now).expiresAt = now + sessionDurationMs ∧
      mapGet (refreshSession s tok newTok now).2.sessions tok = none ∧
      (validateSession (refreshSession s tok newTok now).2 tok now).1 = none ∧
      (validateSession (refreshSession s tok newTok now).2 newTok now).1 = some u) := by
  constructor
  · intro h0
    simp [refreshSession, h0]
  · intro u hu
    obtain ⟨hst, sess, hm, huser, hev⟩ := validateSession_some s tok now u hu
    have hv : validateSession s tok now = (some u, s) := by
      have hpair : validateSession s tok now =
          ((validateSession s tok now).1, (validateSession s tok now).2) := rfl
      rw [hpair, hu, hst]
    have hre : refreshSession s tok newTok now =
        (.ok (createSession u newTok now),
         { users := s.users,
           sessions :=
             mapSet (mapDelete s.sessions tok) newTok (createSession u newTok now) }) := by
      simp only [refreshSession, hv]
      rfl
    have hgtok : mapGet
        (mapSet (mapDelete s.sessions tok) newTok (createSession u newTok now)) tok =
        none := by
      rw [mapGet_set_ne _ _ _ _ (Ne.symm hne), mapGet_delete_self]
    have hgnew : mapGet
        (mapSet (mapDelete s.sessions tok) newTok (createSession u newTok now)) newTok =
        some (createSession u newTok now) := mapGet_set_self _ _ _
    refine ⟨by rw [hre], rfl, by rw [hre]; exact hgtok, ?_, ?_⟩
    · rw [hre]
      simp [validateSession, hgtok]
    · rw [hre]
      simp only [validateSession, hgnew]
      have : ¬ (createSession u newTok now).expiresAt < now := by
        simp [createSession]
      rw [if_neg this]
      simp [createSession]

/-- C9 witness: a concrete valid refresh, instantiating the amended theorem. -/
theorem c9_witness :
    (refreshSession (stateWithSession 100) "tok" "nt" 99).1 =
      .ok (createSession userA "nt" 99) ∧
    (createSession userA "nt" 99).expiresAt = 99 + sessionDurationMs ∧
    mapGet (refreshSession (stateWithSession 100) "tok" "nt" 99).2.sessions "tok" = none ∧
    (validateSession (refreshSession (stateWithSession 100) "tok" "nt" 99).2 "tok" 99).1 = none ∧
    (validateSession (refreshSession (stateWithSession 100) "tok" "nt" 99).2 "nt" 99).1 =
      some userA :=
  (c9_refresh_session (stateWithSession 100) "tok" "nt" 99 (by decide)).2 userA rfl

/-! ### C7: uniform login failure message -/

/-- C7 (counterexample): an empty password never matches the stored
credential `"secret1"`, yet that login fails with the missing-credentials
message, not the invalid-credentials message produced for an unknown email —
the two failure messages differ. -/
theorem c7_counterexample :
    login stateWithAlice { email := "a@b.c", password := "" } "tk" 0 =
      (.error "Email and password are required", stateWithAlice) ∧
    login stateWithAlice { email := "z@x.y", password := "secret1" } "tk" 0 =
      (.error "Invalid email or password", stateWithAlice) ∧
    ("Email and password are required" : String) ≠ "Invalid email or password" := by
  exact ⟨rfl, rfl, by decide⟩

/-- C7 (amended): for non-empty credentials, a login whose email resolves to
a stored user but whose password mismatches, and a login whose email
resolves to no user, fail with the identical invalid-credentials message
(and neither mutates the state). -/
theorem c7_login_uniform_error (s : AuthState) (e p e' p' tok tok' : String)
    (now now' : Nat) (uw : UserWithPassword)
    (he : e ≠ "") (hp : p ≠ "")
    (hfound : usersGetByEmail s.users e = some uw)
    (hmis : uw.passwordHash ≠ p)
    (he' : e' ≠ "") (hp' : p' ≠ "")
    (hnone : usersGetByEmail s.users e' = none) :
    login s { email := e, password := p } tok now =
      (.error "Invalid email or password", s) ∧
    login s { email := e', password := p' } tok' now' =
      (.error "Invalid email or password", s) := by
  constructor
  · simp [login, he, hp, hfound, hmis]
  · simp [login, he', hp', hnone]

/-- C7 witness at concrete inputs. -/
theorem c7_witness :
    login stateWithAlice { email := "a@b.c", password := "wrongpass" } "tk" 0 =
      (.error "Invalid email or password", stateWithAlice) ∧
    login stateWithAlice { email := "z@x.y", password := "secret1" } "tk2" 0 =
      (.error "Invalid email or password", stateWithAlice) :=
  c7_login_uniform_error stateWithAlice "a@b.c" "wrongpass" "z@x.y" "secret1"
    "tk" "tk2" 0 0 aliceUW (by decide) (by decide) rfl (by decide)
    (by decide) (by decide) rfl

/-! ### C4: duplicate email on register -/

/-- C4 (counterexample): a second registration whose email equals the
stored `"a@b.c"` up to case but whose password is too short fails with the
password validation error, not the duplicate-email error the claim
asserts (the user set is still unchanged). -/
theorem c4_counterexample :
    register stateWithAlice { email := "A@B.C", username := "bob", password := "123" }
      "id2" "tk" 0 = (.error "Password must be at least 6 characters", stateWithAlice) ∧
    jsToLower "A@B.C" = jsToLower "a@b.c" ∧
    ("Password must be at least 6 characters" : String) ≠ "Email already registered" := by
  exact ⟨rfl, rfl, by decide⟩

/-- C4 (amended): a second `register` whose email matches a stored user's
email case-insensitively, and whose fields pass the shape validations
(email contains `@`, username length ≥ 3, password length ≥ 6), fails with
the duplicate-email error and leaves the whole state — in particular the
stored user set — unchanged. -/
theorem c4_duplicate_email (s : AuthState) (d : RegisterDTO) (u : UserWithPassword)
    (newId newTok : String) (now : Nat)
    (hmem : u ∈ s.users) (hdup : jsToLower u.email = jsToLower d.email)
    (hat : jsIncludes d.email '@' = true)
    (hun : 3 ≤ d.username.length) (hpw : 6 ≤ d.password.length) :
    register s d newId newTok now = (.error "Email already registered", s) := by
  have hne : d.email ≠ "" := by
    intro h
    rw [h] at hat
    exact absurd hat (by decide)
  have hne2 : d.username ≠ "" := by
    intro h
    rw [h] at hun
    exact absurd hun (by decide)
  have hne3 : d.password ≠ "" := by
    intro h
    rw [h] at hpw
    exact absurd hpw (by decide)
  have h4 : ¬ d.username.length < 3 := by omega
  have h5 : ¬ d.password.length < 6 := by omega
  have hex : emailExists s.users d.email = true := by
    simp only [emailExists, List.any_eq_true]
    exact ⟨u, hmem, by simp [hdup]⟩
  simp [register, hne, hat, hne2, h4, hne3, h5, hex]

/-- C4 witness at concrete inputs. -/
theorem c4_witness :
    register stateWithAlice { email := "A@B.C", username := "bob", password := "secret2" }
      "id2" "tk" 0 = (.error "Email already registered", stateWithAlice) :=
  c4_duplicate_email stateWithAlice
    { email := "A@B.C", username := "bob", password := "secret2" } aliceUW
    "id2" "tk" 0 (by decide) rfl rfl (by decide) (by decide)

/-! ### C1: changePassword never persists the new credential -/

/-- C1 (code bug): under exactly the claim's preconditions — valid session,
matching `userId`, correct current password, new password of length ≥ 6 —
`changePassword` returns success but the whole state, including the user
store, is unchanged: the updated record computed on
`TodoUseCases.ts` line 215 is never written back. Consequently a subsequent
login with the new password fails. -/
theorem c1_change_password_not_persisted (s : AuthState) (tok tok2 : String)
    (d : ChangePasswordDTO) (now now2 : Nat)
    (sess : AuthSession) (uw : UserWithPassword)
    (hget : mapGet s.sessions tok = some sess)
    (hexp : ¬ sess.expiresAt < now)
    (hid : sess.user.id = d.userId)
    (hcne : d.currentPassword ≠ "")
    (hmail : usersGetByEmail s.users sess.user.email = some uw)
    (hcur : uw.passwordHash = d.currentPassword)
    (hlen : 6 ≤ d.newPassword.length)
    (hemail : sess.user.email ≠ "")
    (hdiff : uw.passwordHash ≠ d.newPassword) :
    changePassword s tok d now = (.ok (), s) ∧
    login s { email := sess.user.email, password := d.newPassword } tok2 now2 =
      (.error "Invalid email or password", s) := by
  have hv : validateSession s tok now = (some sess.user, s) := by
    simp only [validateSession, hget]
    rw [if_neg hexp]
  have hnne : d.newPassword ≠ "" := by
    intro h
    rw [h] at hlen
    exact absurd hlen (by decide)
  have h6 : ¬ d.newPassword.length < 6 := by omega
  constructor
  · simp [changePassword, hv, hid, hcne, hnne, h6, hmail, hcur]
  · simp [login, hemail, hnne, hmail, hdiff]

/-- C1 witness: the concrete failing input — `changePassword` reports
success, yet logging in with the new password fails because the stored
credential is still the old one. -/
theorem c1_witness :
    changePassword stateAliceLoggedIn "tok"
      { userId := "u1", currentPassword := "secret1", newPassword := "newsecret1" } 50 =
      (.ok (), stateAliceLoggedIn) ∧
    login stateAliceLoggedIn { email := "a@b.c", password := "newsecret1" } "tk2" 60 =
      (.error "Invalid email or password", stateAliceLoggedIn) :=
  c1_change_password_not_persisted stateAliceLoggedIn "tok" "tk2"
    { userId := "u1", currentPassword := "secret1", newPassword := "newsecret1" }
    50 60 (sessionAt 100) aliceUW rfl (by decide) rfl (by decide) rfl rfl
    (by decide) (by decide) (by decide)

/-! ### C10: the in-memory user repository strips the credential -/

/-- Two user stores agree on everything except (possibly) the stored
credentials. -/
def samePublic (us vs : UserStore) : Prop :=
  List.Forall₂ (fun u v => stripPassword u = stripPassword v) us vs

/-- C10 (confirmed, as noninterference): the results of `getAll`, `getById`
and `update` are entirely independent of the stored `passwordHash` values —
they return credential-stripped records, so changing every stored credential
changes nothing about their output (and `update` preserves the
credential-blindness relation between stores). By contrast `getByEmail`
returns the stored credential-bearing record itself (it is a member of the
backing store, hash included). -/
theorem c10_credential_stripping (us vs : UserStore) (id e : String)
    (d : UpdateUserDTO) (h : samePublic us vs) :
    usersGetAll us = usersGetAll vs ∧
    usersGetById us id = usersGetById vs id ∧
    (usersUpdate us d).1 = (usersUpdate vs d).1 ∧
    samePublic (usersUpdate us d).2 (usersUpdate vs d).2 ∧
    (∀ uw, usersGetByEmail us e = some uw → uw ∈ us) := by
  refine ⟨?_, ?_, ?_, ?_, ?_⟩
  · induction h with
    | nil => rfl
    | cons hab htl ih =>
      simp only [usersGetAll, List.map_cons] at ih ⊢
      rw [hab]
      exact congrArg _ ih
  · induction h with
    | nil => rfl
    | cons hab htl ih =>
      rename_i a b l1 l2
      have hid : a.id = b.id := congrArg User.id hab
      by_cases hcase : a.id = id
      · have hb : b.id = id := by rw [← hid]; exact hcase
        simp [usersGetById, List.find?_cons_of_pos, hcase, hb, hab]
      · have hb : ¬ b.id = id := by rw [← hid]; exact hcase
        simpa [usersGetById, List.find?_cons_of_neg, hcase, hb] using ih
  · induction h with
    | nil => rfl
    | cons hab htl ih =>
      rename_i a b l1 l2
      have hid : a.id = b.id := congrArg User.id hab
      have hmerge : stripPassword (mergeUser a d) = stripPassword (mergeUser b d) := by
        have he : a.email = b.email := congrArg User.email hab
        have hu2 : a.username = b.username := congrArg User.username hab
        have hc : a.createdAt = b.createdAt := congrArg User.createdAt hab
        simp [stripPassword, mergeUser, hid, he, hu2, hc]
      by_cases hcase : a.id = d.id
      · have hb : b.id = d.id := by rw [← hid]; exact hcase
        simp [usersUpdate, hcase, hb, hmerge]
      · have hb : ¬ b.id = d.id := by rw [← hid]; exact hcase
        simpa [usersUpdate, hcase, hb] using ih
  · induction h with
    | nil => exact List.Forall₂.nil
    | cons hab htl ih =>
      rename_i a b l1 l2
      have hid : a.id = b.id := congrArg User.id hab
      have hmerge : stripPassword (mergeUser a d) = stripPassword (mergeUser b d) := by
        have he : a.email = b.email := congrArg User.email hab
        have hu2 : a.username = b.username := congrArg User.username hab
        have hc : a.createdAt = b.createdAt := congrArg User.createdAt hab
        simp [stripPassword, mergeUser, hid, he, hu2, hc]
      by_cases hcase : a.id = d.id
      · have hb : b.id = d.id := by rw [← hid]; exact hcase
        simp only [samePublic, usersUpdate, hcase, hb, if_pos]
        exact List.Forall₂.cons hmerge htl
      · have hb : ¬ b.id = d.id := by rw [← hid]; exact hcase
        simp only [samePublic, usersUpdate, hcase, hb, if_neg, not_false_iff]
        exact List.Forall₂.cons hab ih
  · intro uw huw
    exact List.mem_of_find?_eq_some huw

/-- C10 witness: flipping the stored credential changes nothing about
`getAll`, `getById` and `update`, while `getByEmail` hands back the stored
record itself. -/
theorem c10_witness :
    usersGetAll [aliceUW] = usersGetAll [{ aliceUW with passwordHash := "other" }] ∧
    usersGetById [aliceUW] "u1" =
      usersGetById [{ aliceUW with passwordHash := "other" }] "u1" ∧
    (usersUpdate [aliceUW] { id := "u1" }).1 =
      (usersUpdate [{ aliceUW with passwordHash := "other" }] { id := "u1" }).1 ∧
    samePublic (usersUpdate [aliceUW] { id := "u1" }).2
      (usersUpdate [{ aliceUW with passwordHash := "other" }] { id := "u1" }).2 ∧
    (∀ uw, usersGetByEmail [aliceUW] "a@b.c" = some uw → uw ∈ [aliceUW]) :=
  c10_credential_stripping [aliceUW] [{ aliceUW with passwordHash := "other" }]
    "u1" "a@b.c" { id := "u1" } (List.Forall₂.cons rfl List.Forall₂.nil)

/-! ### C3: remote adapters and transport failures -/

/-- C3 (counterexample): a non-404 transport failure (an HTTP 500, a network
error) does not propagate out of `ApiTodoRepository.getById` /
`ApiUserRepository.getByEmail` — the catch-all converts it into a successful
`null` result. -/
theorem c3_counterexample :
    apiTodoGetById (.error (.httpStatus 500 "Internal Server Error")) = .ok none ∧
    (apiTodoGetById (.error (.httpStatus 500 "Internal Server Error"))).isOk = true ∧
    apiUserGetByEmail (.error (.network "connection refused")) = .ok none ∧
    (apiUserGetByEmail (.error (.network "connection refused"))).isOk = true := by
  exact ⟨rfl, rfl, rfl, rfl⟩

/-- C3 (amended): `getById`/`getByEmail` recover *every* transport failure —
404 or any other — into a `null` result; a successful response is passed
through. No transport failure propagates out of these two lookups. -/
theorem c3_lookup_null_recovery (f : TransportFailure) (t : Todo)
    (u : UserWithPassword) :
    apiTodoGetById (.error f) = .ok none ∧
    apiTodoGetById (.ok t) = .ok (some t) ∧
    apiUserGetByEmail (.error f) = .ok none ∧
    apiUserGetByEmail (.ok u) = .ok (some u) := by
  exact ⟨rfl, rfl, rfl, rfl⟩

end TodoApp
